import Mathlib

/-!
Verification of the zkLogin authentication/session/proof orchestration engine
(client `zklogin.utils.ts` and server zkLogin routes), shallowly embedded.

Modelling conventions:
* Web `sessionStorage` / `localStorage` are functions `String → Option String`;
  `getItem` returning `null` is `none`.
* External SDK functions (`generateNonce`, `jwtToAddress`, `genAddressSeed`,
  `getZkLoginSignature`, JWT decoding, JSON parse/stringify of stored records,
  `Ed25519Keypair.fromSecretKey`, `Number(...)`) are fields of an abstract
  `Sdk` record: they are external collaborators, not code of this repository.
* Network endpoints (epoch, salt, zkproof, email-salt-backup, transaction
  submission) are fields of an abstract environment record; each client
  operation additionally returns the list of network calls it dispatched,
  in order, so that "no request was sent" is a statement about that trace.
* JavaScript truthiness on nullable strings (`!s`) holds for `null`/absent
  and for the empty string; on numbers it also holds for `0`.
* JavaScript strict equality between a `string | null` and a
  `string | undefined` is true only when both sides are the same string
  (`null !== undefined`); `jsStrictEq` reproduces that.
-/

/-- JS truthiness test (negated) for a nullable / optional string:
`!x` is true when the value is `null`/`undefined` or the empty string. -/
def jsFalsyOpt : Option String → Bool
  | none => true
  | some s => s == ""

/-- JS truthiness test (negated) for an optional number: `!x` is true when
the value is `null`/`undefined` or `0`. -/
def jsFalsyNatOpt : Option Nat → Bool
  | none => true
  | some n => n == 0

/-- JS strict equality `a === b` between two possibly-absent strings, where
an absent left operand stands for `null` and an absent right operand for
`undefined`: true only when both are present and equal. -/
def jsStrictEq : Option String → Option String → Bool
  | some a, some b => a == b
  | _, _ => false

/-- The JWT `aud` claim is either a single string or an array of strings. -/
inductive AudClaim where
  | scalar (s : String)
  | list (l : List String)
deriving DecidableEq, Repr

/-- `Array.isArray(aud) ? aud[0] : aud` — normalize an optional audience
claim to an optional scalar, taking the first entry of an array
(`[][0]` is `undefined`, i.e. `none`). -/
def normalizeAud : Option AudClaim → Option String
  | none => none
  | some (.scalar s) => some s
  | some (.list l) => l.head?

/-- Decoded JWT payload, with the claims this code reads. -/
structure JwtPayload where
  iss : Option String := none
  sub : Option String := none
  aud : Option AudClaim := none
  nonce : Option String := none
  email : Option String := none
deriving DecidableEq, Repr

/-! ## Browser storage model -/

/-- A Web Storage object: finite string-keyed map, observed via `getItem`. -/
def Storage := String → Option String

/-- `storage.setItem key value` -/
def Storage.setItem (s : Storage) (key value : String) : Storage :=
  fun k => if k = key then some value else s k

/-- `storage.removeItem key` -/
def Storage.removeItem (s : Storage) (key : String) : Storage :=
  fun k => if k = key then none else s k

/-- `storage.getItem key` -/
def Storage.getItem (s : Storage) (key : String) : Option String := s key

/-- Browser state visible to the client utilities: `sessionStorage` and
`localStorage`. -/
structure ClientState where
  session : Storage
  localS : Storage

/-- The `SESSION_KEYS` constant of `zklogin.utils.ts`. -/
def KEY_EPHEMERAL_PRIVATE_KEY : String := "ephemeral_private_key"
/-- `SESSION_KEYS.MAX_EPOCH` -/
def KEY_MAX_EPOCH : String := "max_epoch"
/-- `SESSION_KEYS.RANDOMNESS` -/
def KEY_RANDOMNESS : String := "randomness"
/-- `SESSION_KEYS.NONCE` -/
def KEY_NONCE : String := "nonce"
/-- `SESSION_KEYS.ZK_PROOF` -/
def KEY_ZK_PROOF : String := "zk_proof"
/-- `SESSION_KEYS.USER_SALT` -/
def KEY_USER_SALT : String := "user_salt"
/-- `SESSION_KEYS.DECODED_JWT` -/
def KEY_DECODED_JWT : String := "decoded_jwt"
/-- `SESSION_KEYS.ZKLOGIN_ADDRESS` -/
def KEY_ZKLOGIN_ADDRESS : String := "zklogin_address"
/-- `SESSION_KEYS.SALT_BACKUP_SENT` -/
def KEY_SALT_BACKUP_SENT : String := "salt_backup_sent"

/-- `Object.values(SESSION_KEYS)`, in declaration order. -/
def sessionKeys : List String :=
  [KEY_EPHEMERAL_PRIVATE_KEY, KEY_MAX_EPOCH, KEY_RANDOMNESS, KEY_NONCE,
   KEY_ZK_PROOF, KEY_USER_SALT, KEY_DECODED_JWT, KEY_ZKLOGIN_ADDRESS,
   KEY_SALT_BACKUP_SENT]

/-- The device-scoped localStorage key `zklogin_salt_${sub}`; a JS template
literal renders an `undefined` subject as the string `"undefined"`. -/
def saltStorageKey (sub : Option String) : String :=
  "zklogin_salt_" ++ (match sub with | some s => s | none => "undefined")

/-! ## Client utility functions on storage -/

/-- `isZkLoginSessionActive`: `sessionStorage.getItem(ZKLOGIN_ADDRESS) !== null`. -/
def isZkLoginSessionActive (st : ClientState) : Bool :=
  (st.session.getItem KEY_ZKLOGIN_ADDRESS).isSome

/-- `getZkLoginAddress`: `sessionStorage.getItem(ZKLOGIN_ADDRESS)`. -/
def getZkLoginAddress (st : ClientState) : Option String :=
  st.session.getItem KEY_ZKLOGIN_ADDRESS

/-- `zkLoginLogout`: removes every `SESSION_KEYS` entry from sessionStorage. -/
def zkLoginLogout (st : ClientState) : ClientState :=
  { st with session := sessionKeys.foldl (fun s k => s.removeItem k) st.session }

/-- `recoverSaltFromStorage`: `localStorage.getItem('zklogin_salt_' + userSub)`. -/
def recoverSaltFromStorage (st : ClientState) (userSub : String) : Option String :=
  st.localS.getItem (saltStorageKey (some userSub))

/-! ## Server: salt endpoint (`router.post('/salt')`) -/

/-- Decoded server-side JWT payload (`jsonwebtoken`'s `decode`). -/
structure ServerJwt where
  sub : Option String := none
  aud : Option AudClaim := none
  iss : Option String := none
  nonce : Option String := none
deriving DecidableEq, Repr

/-- Environment of the salt route: the external JWT decoder, the HMAC-SHA256
primitive (as a byte-list digest), the process-wide master secret and the
client-id whitelist. -/
structure SaltServerEnv where
  decode : String → Option ServerJwt
  hmacSha256 : String → String → List Nat
  masterSecret : String
  whitelist : List String

/-- Base-256 big-endian value of a byte list; `BigInt('0x' + hex)` of a
buffer computes exactly this. -/
def bytesToNat (bs : List Nat) : Nat :=
  bs.foldl (fun acc b => acc * 256 + b) 0

/-- Salt derivation of the `/salt` route: HMAC-SHA256(masterSecret, sub),
first 16 bytes of the digest as a big-endian integer, rendered in decimal. -/
def deriveSalt (env : SaltServerEnv) (sub : String) : String :=
  toString (bytesToNat ((env.hmacSha256 env.masterSecret sub).take 16))

/-- Response of the salt route: `200 {salt}` or `403` with a details
message (the route's `details` field, with its JSON wrapping elided). -/
inductive SaltRouteResp where
  | ok (salt : String)
  | forbidden (details : String)
deriving DecidableEq, Repr

/-- The in-memory `userSalts` map, as an association list (most recent
insertion first). -/
abbrev SaltCache := List (String × String)

/-- `token.split('.').length` of JS: for a one-character separator the
number of parts is one more than the number of separator occurrences. -/
def splitDotCount (s : String) : Nat := s.toList.count '.' + 1

/-- `router.post('/salt')`: format check, decode, `sub` check, audience
whitelist check, then cache lookup or fresh derivation (which is cached). -/
def saltRoute (env : SaltServerEnv) (cache : SaltCache) (token : Option String) :
    SaltRouteResp × SaltCache :=
  if jsFalsyOpt token || splitDotCount (token.getD "") != 3 then
    (.forbidden "Invalid JWT format", cache)
  else
    match env.decode (token.getD "") with
    | none => (.forbidden "Invalid JWT", cache)
    | some decoded =>
      if jsFalsyOpt decoded.sub then
        (.forbidden "Missing user subject (sub)", cache)
      else
        let normalizedAud := normalizeAud decoded.aud
        if jsFalsyOpt normalizedAud ||
            !(env.whitelist.contains (normalizedAud.getD "")) then
          (.forbidden "Invalid Client ID", cache)
        else
          let userSub := decoded.sub.getD ""
          match cache.lookup userSub with
          | some s => (.ok s, cache)
          | none =>
            let salt := deriveSalt env userSub
            (.ok salt, (userSub, salt) :: cache)

/-- Invariant maintained by the salt route: every cached entry is exactly
the deterministic derivation for its subject. -/
def SaltCacheInv (env : SaltServerEnv) (cache : SaltCache) : Prop :=
  ∀ p ∈ cache, p.2 = deriveSalt env p.1

/-! ## Server: zkproof endpoint (`router.post('/zkproof')`) -/

/-- The partial zkLogin signature returned by the prover. -/
structure PartialZkLoginSignature where
  proofA : String
  proofB : String
  proofC : String
  issValue : String
  indexMod4 : Nat
  headerBase64 : String
deriving DecidableEq, Repr

/-- Request body of the `/zkproof` route; fields may be absent. -/
structure ZkProofBody where
  jwt : Option String := none
  extendedEphemeralPublicKey : Option String := none
  maxEpoch : Option Nat := none
  jwtRandomness : Option String := none
  salt : Option String := none
deriving DecidableEq, Repr

/-- Payload dispatched to the external Mysten prover (adds `keyClaimName`). -/
structure ProverPayload where
  jwt : String
  extendedEphemeralPublicKey : String
  maxEpoch : Nat
  jwtRandomness : String
  salt : String
  keyClaimName : String
deriving DecidableEq, Repr

/-- Response of the external prover service. -/
inductive ProverResp where
  | ok (proof : PartialZkLoginSignature)
  | fail (text : String)
deriving DecidableEq, Repr

/-- Response of the `/zkproof` route. -/
inductive ZkProofRouteResp where
  | ok (proof : PartialZkLoginSignature)
  | badRequest
  | serverError (msg : String)
deriving DecidableEq, Repr

/-- `router.post('/zkproof')`: validates the five required fields (JS
truthiness: absent, empty string, or `0` fail), then dispatches the payload
with `keyClaimName := "sub"` to the prover.  The second component records
the payload sent to the prover, `none` when nothing was dispatched. -/
def zkproofRoute (prover : ProverPayload → ProverResp) (body : ZkProofBody) :
    ZkProofRouteResp × Option ProverPayload :=
  if jsFalsyOpt body.jwt || jsFalsyOpt body.extendedEphemeralPublicKey ||
      jsFalsyNatOpt body.maxEpoch || jsFalsyOpt body.jwtRandomness ||
      jsFalsyOpt body.salt then
    (.badRequest, none)
  else
    let payload : ProverPayload :=
      { jwt := body.jwt.getD ""
        extendedEphemeralPublicKey := body.extendedEphemeralPublicKey.getD ""
        maxEpoch := body.maxEpoch.getD 0
        jwtRandomness := body.jwtRandomness.getD ""
        salt := body.salt.getD ""
        keyClaimName := "sub" }
    match prover payload with
    | .fail text => (.serverError ("Prover service error: " ++ text), some payload)
    | .ok proof => (.ok proof, some payload)

/-! ## Client: abstract SDK and network environment -/

/-- External SDK operations used by `zklogin.utils.ts` (all from
`@mysten/sui` / `jwt-decode` / the JS runtime, i.e. outside this
repository), kept abstract.  Keys, transactions, signatures and encoded
values are represented as strings. -/
structure Sdk where
  /-- `jwtDecode` on the client; `none` when decoding throws. -/
  jwtDecode : String → Option JwtPayload
  /-- `Ed25519Keypair.fromSecretKey(s).getPublicKey()`; `none` when the
  secret-key string is rejected (the constructor throws). -/
  pubOfSecret : String → Option String
  /-- `generateNonce(publicKey, maxEpoch, randomness)`. -/
  generateNonce : String → Nat → String → String
  /-- JS `Number(...)` on the numeric strings this code stores. -/
  numOf : String → Nat
  /-- `jwtToAddress(jwt, salt)`. -/
  jwtToAddress : String → String → String
  /-- `getExtendedEphemeralPublicKey(publicKey)`. -/
  extendPub : String → String
  /-- `transactionBlock.setSender(addr)` + `transactionBlock.sign({...})`:
  secret key → sender address → transaction → (bytes, userSignature). -/
  signTx : String → String → String → String × String
  /-- `genAddressSeed(BigInt(salt), 'sub', sub, aud).toString()` (the
  `BigInt` conversion is internal to this abstract call). -/
  genAddressSeed : String → String → String → String → String
  /-- `getZkLoginSignature({inputs: {...proof, addressSeed}, maxEpoch,
  userSignature})`; the route passes `maxEpoch` as the stored string. -/
  getZkLoginSignature : PartialZkLoginSignature → String → String → String → String
  /-- `JSON.parse` of a stored proof; `none` when it throws. -/
  parseProof : String → Option PartialZkLoginSignature
  /-- `JSON.stringify` of a proof. -/
  stringifyProof : PartialZkLoginSignature → String
  /-- `JSON.parse` of a stored decoded-JWT record; `none` when it throws. -/
  parseJwt : String → Option JwtPayload
  /-- `JSON.stringify` of a decoded JWT. -/
  stringifyJwt : JwtPayload → String
  /-- `URLSearchParams` percent-encoding of one parameter value. -/
  urlEncode : String → String

/-- `GET /epoch` response body (`epoch` is a string in JSON). -/
structure EpochInfo where
  epoch : String
  epochDurationMs : String
  epochStartTimestampMs : String
deriving DecidableEq, Repr

/-- `POST /salt` response as seen by the client: `ok` with the `salt`
field of the JSON body, or a failure with the (already unwrapped) error
details text. -/
inductive SaltResp where
  | ok (salt : String)
  | fail (details : String)
deriving DecidableEq, Repr

/-- Body of `POST /email-salt-backup`. -/
structure BackupReq where
  userSub : String
  userEmail : String
  userSalt : String
  timestamp : String
deriving DecidableEq, Repr

/-- Outcome of the salt-backup request as seen by `sendSaltBackupEmail`:
`ok` when the response is `ok` and its JSON parses, `fail` otherwise
(non-ok status or a thrown error — both are thrown to the caller). -/
inductive BackupResp where
  | ok
  | fail
deriving DecidableEq, Repr

/-- Body of `POST /zkproof` as sent by the client (all five fields). -/
structure ProofReq where
  jwt : String
  extendedEphemeralPublicKey : String
  maxEpoch : Nat
  jwtRandomness : String
  salt : String
deriving DecidableEq, Repr

/-- `POST /zkproof` response as seen by the client. -/
inductive ProofResp where
  | ok (proof : PartialZkLoginSignature)
  | fail (text : String)
deriving DecidableEq, Repr

/-- `suiClient.executeTransactionBlock` outcome: `ok` with the result
digest, or a rejection. -/
inductive ExecResp where
  | ok (digest : String)
  | fail (text : String)
deriving DecidableEq, Repr

/-- Network/ambient environment of the client flows: responses of each
endpoint, the freshly generated key material and randomness of
`prepareLogin`, and the current timestamp. -/
structure ClientEnv where
  /-- `GET /epoch`: `none` when the fetch is not ok. -/
  epochResp : Option EpochInfo
  /-- Secret key of the freshly generated `Ed25519Keypair`. -/
  freshSecret : String
  /-- Public key of that same keypair. -/
  freshPublic : String
  /-- `generateRandomness()`. -/
  freshRandomness : String
  /-- `POST /salt` with the given token. -/
  saltResp : String → SaltResp
  /-- `POST /email-salt-backup`. -/
  backupResp : BackupReq → BackupResp
  /-- `POST /zkproof`. -/
  proofResp : ProofReq → ProofResp
  /-- `suiClient.executeTransactionBlock(bytes, signature)`. -/
  execResp : String → String → ExecResp
  /-- `new Date().toISOString()`. -/
  now : String

/-- One dispatched network call, recorded in order of dispatch. -/
inductive NetCall where
  | epoch
  | salt (token : String)
  | backup (req : BackupReq)
  | zkproof (req : ProofReq)
  | submit (bytes signature : String)
deriving DecidableEq, Repr

/-- Failure modes of the client flows (the distinct `throw new Error(...)`
sites of `zklogin.utils.ts`). -/
inductive ZkErr where
  /-- `jwtDecode` threw. -/
  | malformedToken
  /-- `'Missing session data. Please login again.'` -/
  | missingSessionData
  /-- `'Nonce mismatch. Please try logging in again.'` -/
  | nonceMismatch
  /-- `'Ephemeral key mismatch. Please try logging in again.'` -/
  | ephemeralKeyMismatch
  /-- `Ed25519Keypair.fromSecretKey` threw on the stored string. -/
  | invalidEphemeralKey
  /-- `'Failed to fetch user salt: ...'` -/
  | saltServiceError (details : String)
  /-- `'Failed to generate ZK proof: ...'` -/
  | proofServiceError (text : String)
  /-- `'Failed to fetch epoch info'` in `prepareLogin`. -/
  | epochFetchFailed
  /-- `'Missing zkLogin session data. Please login again.'` -/
  | missingZkSessionData
  /-- `JSON.parse` threw on the stored proof. -/
  | badStoredProof
  /-- `JSON.parse` threw on the stored decoded JWT. -/
  | badStoredJwt
  /-- `'zkLogin address not found'` -/
  | addressNotFound
  /-- `'JWT "aud" claim is missing'` -/
  | missingAudience
  /-- `genAddressSeed` threw on an `undefined` subject (`decodedJwt.sub!`). -/
  | missingSub
  /-- `executeTransactionBlock` rejected. -/
  | executeFailed (text : String)
deriving DecidableEq, Repr

/-! ## Client: `prepareLogin` -/

/-- The Google OAuth authorize URL built by `prepareLogin`. -/
def authUrlFor (sdk : Sdk) (clientId redirectUrl nonce : String) : String :=
  "https://accounts.google.com/o/oauth2/v2/auth?client_id=" ++ sdk.urlEncode clientId ++
    "&response_type=id_token&redirect_uri=" ++ sdk.urlEncode redirectUrl ++
    "&scope=openid&nonce=" ++ sdk.urlEncode nonce

/-- `prepareLogin`: fetch the epoch, set `maxEpoch := Number(epoch) + 2`,
generate an ephemeral keypair and randomness, derive the nonce, persist
all four session fields, and return the OAuth URL. -/
def prepareLogin (sdk : Sdk) (env : ClientEnv) (clientId redirectUrl : String)
    (st : ClientState) : Except ZkErr String × ClientState × List NetCall :=
  match env.epochResp with
  | none => (.error .epochFetchFailed, st, [NetCall.epoch])
  | some epochInfo =>
    let maxEpoch := sdk.numOf epochInfo.epoch + 2
    let st1 := { st with
      session := st.session.setItem KEY_EPHEMERAL_PRIVATE_KEY env.freshSecret }
    let randomness := env.freshRandomness
    let nonce := sdk.generateNonce env.freshPublic maxEpoch randomness
    let st2 := { st1 with session := st1.session.setItem KEY_MAX_EPOCH (toString maxEpoch) }
    let st3 := { st2 with session := st2.session.setItem KEY_RANDOMNESS randomness }
    let st4 := { st3 with session := st3.session.setItem KEY_NONCE nonce }
    (.ok (authUrlFor sdk clientId redirectUrl nonce), st4, [NetCall.epoch])

/-! ## Client: `completeZkLogin` -/

/-- Result of a successful `completeZkLogin`. -/
structure LoginOk where
  zkLoginUserAddress : String
  decodedJwt : JwtPayload
deriving DecidableEq, Repr

/-- The `POST /email-salt-backup` body assembled by `sendSaltBackupEmail`
(`(decodedJwt as any).email || ''`). -/
def backupReqFor (env : ClientEnv) (jwt : JwtPayload) (userSalt : String) :
    BackupReq :=
  { userSub := jwt.sub.getD ""
    userEmail := jwt.email.getD ""
    userSalt := userSalt
    timestamp := env.now }

/-- The salt-backup step of `completeZkLogin`: when the one-shot
`SALT_BACKUP_SENT` flag is unset and the token has a truthy `sub`, send the
backup request; on success set the flag, on failure log and continue
(the failure is swallowed). -/
def backupStep (env : ClientEnv) (st : ClientState) (jwt : JwtPayload)
    (userSalt : String) : ClientState × List NetCall :=
  let saltBackupSent := st.session.getItem KEY_SALT_BACKUP_SENT
  if jsFalsyOpt saltBackupSent && !(jsFalsyOpt jwt.sub) then
    let req := backupReqFor env jwt userSalt
    match env.backupResp req with
    | .ok =>
      ({ st with session := st.session.setItem KEY_SALT_BACKUP_SENT "true" },
       [NetCall.backup req])
    | .fail => (st, [NetCall.backup req])
  else (st, [])

/-- The `POST /zkproof` body assembled by `completeZkLogin`: the token,
the extended ephemeral public key, `Number(maxEpoch)`, the stored
randomness and the salt. -/
def proofReqFor (sdk : Sdk) (encodedJWT pub maxEpochStr randomness userSalt : String) :
    ProofReq :=
  { jwt := encodedJWT
    extendedEphemeralPublicKey := sdk.extendPub pub
    maxEpoch := sdk.numOf maxEpochStr
    jwtRandomness := randomness
    salt := userSalt }

/-- Tail of `completeZkLogin` after the salt has been obtained and the
backup step has run: derive the address, request the proof, persist the
authenticated session.  Reads nothing from `st`; only writes to it. -/
def finishLogin (sdk : Sdk) (env : ClientEnv) (st : ClientState)
    (encodedJWT : String) (jwt : JwtPayload) (pub maxEpochStr randomness userSalt : String) :
    Except ZkErr LoginOk × ClientState × List NetCall :=
  let zkLoginUserAddress := sdk.jwtToAddress encodedJWT userSalt
  let req := proofReqFor sdk encodedJWT pub maxEpochStr randomness userSalt
  match env.proofResp req with
  | .fail text => (.error (.proofServiceError text), st, [NetCall.zkproof req])
  | .ok proof =>
    let s1 := st.session.setItem KEY_ZK_PROOF (sdk.stringifyProof proof)
    let s2 := s1.setItem KEY_USER_SALT userSalt
    let s3 := s2.setItem KEY_DECODED_JWT (sdk.stringifyJwt jwt)
    let s4 := s3.setItem KEY_ZKLOGIN_ADDRESS zkLoginUserAddress
    (.ok { zkLoginUserAddress := zkLoginUserAddress, decodedJwt := jwt },
     { st with session := s4 }, [NetCall.zkproof req])

/-- Middle of `completeZkLogin` from the salt request onwards (entered only
after both nonce checks passed). -/
def saltAndFinish (sdk : Sdk) (env : ClientEnv) (st : ClientState)
    (encodedJWT : String) (jwt : JwtPayload) (pub maxEpochStr randomness : String) :
    Except ZkErr LoginOk × ClientState × List NetCall :=
  match env.saltResp encodedJWT with
  | .fail details => (.error (.saltServiceError details), st, [NetCall.salt encodedJWT])
  | .ok userSalt =>
    let st1 := { st with session := st.session.setItem KEY_USER_SALT userSalt }
    let st2 := { st1 with
      localS := st1.localS.setItem (saltStorageKey jwt.sub) userSalt }
    let stepped := backupStep env st2 jwt userSalt
    let fin :=
      finishLogin sdk env stepped.1 encodedJWT jwt pub maxEpochStr randomness userSalt
    (fin.1, fin.2.1, NetCall.salt encodedJWT :: (stepped.2 ++ fin.2.2))

/-- `completeZkLogin`: decode the token, check session data is present,
check the stored nonce against the token's nonce, recreate the keypair and
check the re-derived nonce against the token's nonce, then fetch the salt,
run the backup step, derive the address, fetch the proof and persist the
session. -/
def completeZkLogin (sdk : Sdk) (env : ClientEnv) (st : ClientState)
    (encodedJWT : String) : Except ZkErr LoginOk × ClientState × List NetCall :=
  match sdk.jwtDecode encodedJWT with
  | none => (.error .malformedToken, st, [])
  | some decodedJwt =>
    let ephemeralPrivateKeyStr := st.session.getItem KEY_EPHEMERAL_PRIVATE_KEY
    let maxEpoch := st.session.getItem KEY_MAX_EPOCH
    let randomness := st.session.getItem KEY_RANDOMNESS
    let storedNonce := st.session.getItem KEY_NONCE
    if jsFalsyOpt ephemeralPrivateKeyStr || jsFalsyOpt maxEpoch ||
        jsFalsyOpt randomness then
      (.error .missingSessionData, st, [])
    else if !(jsStrictEq storedNonce decodedJwt.nonce) then
      (.error .nonceMismatch, st, [])
    else
      match sdk.pubOfSecret (ephemeralPrivateKeyStr.getD "") with
      | none => (.error .invalidEphemeralKey, st, [])
      | some pub =>
        let verifyNonce :=
          sdk.generateNonce pub (sdk.numOf (maxEpoch.getD "")) (randomness.getD "")
        if !(jsStrictEq (some verifyNonce) decodedJwt.nonce) then
          (.error .ephemeralKeyMismatch, st, [])
        else
          saltAndFinish sdk env st encodedJWT decodedJwt pub
            (maxEpoch.getD "") (randomness.getD "")

/-! ## Client: `executeZkLoginTransaction` -/

/-- Tail of `executeZkLoginTransaction` once the stored proof and decoded
JWT have been parsed: recreate the keypair, check the stored address, sign
the transaction with the ephemeral key, normalize the audience, build the
address seed, assemble the zkLogin signature and submit. -/
def execSignAndSubmit (sdk : Sdk) (env : ClientEnv)
    (ephemeralPrivateKeyStr maxEpochStr userSalt : String)
    (zkLoginAddress : Option String) (zkProof : PartialZkLoginSignature)
    (decodedJwt : JwtPayload) (transactionBlock : String) :
    Except ZkErr String × List NetCall :=
  match sdk.pubOfSecret ephemeralPrivateKeyStr with
  | none => (.error .invalidEphemeralKey, [])
  | some _pub =>
    if jsFalsyOpt zkLoginAddress then (.error .addressNotFound, [])
    else
      let sender := zkLoginAddress.getD ""
      let signed := sdk.signTx ephemeralPrivateKeyStr sender transactionBlock
      let aud := normalizeAud decodedJwt.aud
      if jsFalsyOpt aud then (.error .missingAudience, [])
      else
        match decodedJwt.sub with
        | none => (.error .missingSub, [])
        | some sub =>
          let addressSeed := sdk.genAddressSeed userSalt "sub" sub (aud.getD "")
          let zkLoginSignature :=
            sdk.getZkLoginSignature zkProof addressSeed maxEpochStr signed.2
          match env.execResp signed.1 zkLoginSignature with
          | .fail text =>
            (.error (.executeFailed text), [NetCall.submit signed.1 zkLoginSignature])
          | .ok digest => (.ok digest, [NetCall.submit signed.1 zkLoginSignature])

/-- `executeZkLoginTransaction`: read the stored session, parse the stored
proof and decoded JWT, then sign and submit via `execSignAndSubmit`.  No
current-epoch value is consulted anywhere in the function.  The trace
records the submission call when it is dispatched. -/
def executeZkLoginTransaction (sdk : Sdk) (env : ClientEnv) (st : ClientState)
    (transactionBlock : String) : Except ZkErr String × List NetCall :=
  let ephemeralPrivateKeyStr := st.session.getItem KEY_EPHEMERAL_PRIVATE_KEY
  let maxEpoch := st.session.getItem KEY_MAX_EPOCH
  let zkProofStr := st.session.getItem KEY_ZK_PROOF
  let userSalt := st.session.getItem KEY_USER_SALT
  let decodedJwtStr := st.session.getItem KEY_DECODED_JWT
  let zkLoginAddress := st.session.getItem KEY_ZKLOGIN_ADDRESS
  if jsFalsyOpt ephemeralPrivateKeyStr || jsFalsyOpt zkProofStr ||
      jsFalsyOpt userSalt || jsFalsyOpt decodedJwtStr || jsFalsyOpt maxEpoch then
    (.error .missingZkSessionData, [])
  else
    match sdk.parseProof (zkProofStr.getD "") with
    | none => (.error .badStoredProof, [])
    | some zkProof =>
      match sdk.parseJwt (decodedJwtStr.getD "") with
      | none => (.error .badStoredJwt, [])
      | some decodedJwt =>
        execSignAndSubmit sdk env (ephemeralPrivateKeyStr.getD "")
          (maxEpoch.getD "") (userSalt.getD "") zkLoginAddress zkProof
          decodedJwt transactionBlock

/-! ## Helper lemmas -/

/-- `getItem` after `setItem` reads the new value at the written key and
the old storage elsewhere. -/
theorem Storage.getItem_setItem (s : Storage) (k v k' : String) :
    (s.setItem k v).getItem k' = if k' = k then some v else s.getItem k' := rfl

/-- Removing a list of keys from a storage clears exactly those keys. -/
theorem foldl_removeItem_apply (L : List String) (s : Storage) (k : String) :
    (L.foldl (fun s k => s.removeItem k) s) k = if k ∈ L then none else s k := by
  induction L generalizing s with
  | nil => simp
  | cons a t ih =>
    simp only [List.foldl_cons, ih, Storage.removeItem]
    by_cases h1 : k ∈ t <;> by_cases h2 : k = a <;>
      simp [h1, h2, List.mem_cons]

/-- A successful `List.lookup` pinpoints a member of the association list. -/
theorem lookup_mem_of_eq_some {c : SaltCache} {k v : String}
    (h : c.lookup k = some v) : (k, v) ∈ c := by
  induction c with
  | nil => simp [List.lookup] at h
  | cons p t ih =>
    rw [List.lookup] at h
    split at h
    · rename_i heq
      obtain rfl : p.1 = k := by
        have := eq_of_beq heq
        exact this.symm
      cases h
      exact List.mem_cons_self _ _
    · exact List.mem_cons_of_mem _ (ih h)

/-! ## C10: logout frame effect -/

/-- C10: `zkLoginLogout` clears exactly the `SESSION_KEYS` entries of
sessionStorage (any other sessionStorage key is untouched), so afterwards
`isZkLoginSessionActive` is `false` and `getZkLoginAddress` is `none`,
while localStorage — and hence `recoverSaltFromStorage` for every subject —
is completely unchanged. -/
theorem zkLoginLogout_clears_session_only (st : ClientState) (userSub k : String) :
    (zkLoginLogout st).session k = (if k ∈ sessionKeys then none else st.session k)
    ∧ isZkLoginSessionActive (zkLoginLogout st) = false
    ∧ getZkLoginAddress (zkLoginLogout st) = none
    ∧ (zkLoginLogout st).localS = st.localS
    ∧ recoverSaltFromStorage (zkLoginLogout st) userSub =
        recoverSaltFromStorage st userSub := by
  have hmem : KEY_ZKLOGIN_ADDRESS ∈ sessionKeys := by simp [sessionKeys]
  refine ⟨?_, ?_, ?_, rfl, rfl⟩
  · exact foldl_removeItem_apply _ _ _
  · show ((sessionKeys.foldl (fun s k => s.removeItem k) st.session)
        KEY_ZKLOGIN_ADDRESS).isSome = false
    rw [foldl_removeItem_apply, if_pos hmem]
    rfl
  · show (sessionKeys.foldl (fun s k => s.removeItem k) st.session)
        KEY_ZKLOGIN_ADDRESS = none
    rw [foldl_removeItem_apply, if_pos hmem]

/-! ## C8: zkproof endpoint input validation -/

/-- C8: the `/zkproof` route rejects with `400 Missing required fields`,
dispatching nothing to the external prover, whenever any of the five
inputs is absent; and whenever a payload is dispatched, all five inputs
were present and the payload carries them plus `keyClaimName = "sub"`. -/
theorem zkproofRoute_validates_inputs (prover : ProverPayload → ProverResp)
    (body : ZkProofBody) :
    ((body.jwt = none ∨ body.extendedEphemeralPublicKey = none ∨
        body.maxEpoch = none ∨ body.jwtRandomness = none ∨ body.salt = none) →
      zkproofRoute prover body = (.badRequest, none))
    ∧ (∀ p, (zkproofRoute prover body).2 = some p →
        body.jwt.isSome ∧ body.extendedEphemeralPublicKey.isSome ∧
        body.maxEpoch.isSome ∧ body.jwtRandomness.isSome ∧ body.salt.isSome ∧
        p.keyClaimName = "sub") := by
  constructor
  · intro h
    have hcond : (jsFalsyOpt body.jwt || jsFalsyOpt body.extendedEphemeralPublicKey ||
        jsFalsyNatOpt body.maxEpoch || jsFalsyOpt body.jwtRandomness ||
        jsFalsyOpt body.salt) = true := by
      rcases h with h | h | h | h | h <;> simp [h, jsFalsyOpt, jsFalsyNatOpt]
    simp [zkproofRoute, hcond]
  · intro p hp
    by_cases hcond : (jsFalsyOpt body.jwt || jsFalsyOpt body.extendedEphemeralPublicKey ||
        jsFalsyNatOpt body.maxEpoch || jsFalsyOpt body.jwtRandomness ||
        jsFalsyOpt body.salt) = true
    · simp [zkproofRoute, hcond] at hp
    · rw [Bool.not_eq_true] at hcond
      simp only [Bool.or_eq_false_iff] at hcond
      obtain ⟨⟨⟨⟨h1, h2⟩, h3⟩, h4⟩, h5⟩ := hcond
      refine ⟨?_, ?_, ?_, ?_, ?_, ?_⟩
      · cases hj : body.jwt <;> simp [hj, jsFalsyOpt] at h1 ⊢
      · cases hj : body.extendedEphemeralPublicKey <;> simp [hj, jsFalsyOpt] at h2 ⊢
      · cases hj : body.maxEpoch <;> simp [hj, jsFalsyNatOpt] at h3 ⊢
      · cases hj : body.jwtRandomness <;> simp [hj, jsFalsyOpt] at h4 ⊢
      · cases hj : body.salt <;> simp [hj, jsFalsyOpt] at h5 ⊢
      · revert hp
        simp only [zkproofRoute, h1, h2, h3, h4, h5, Bool.or_self, Bool.or_false,
          Bool.false_or, if_false, Bool.false_eq_true]
        split <;> (intro hp; cases hp; rfl)

/-- Witness for C8: a body missing only `salt` is rejected without
dispatch, and a complete body's dispatched payload carries all five
fields with `keyClaimName = "sub"`. -/
theorem zkproofRoute_validates_inputs_witness :
    zkproofRoute (fun _ => .fail "down")
      { jwt := some "j", extendedEphemeralPublicKey := some "k",
        maxEpoch := some 7, jwtRandomness := some "r", salt := none } =
      (.badRequest, none) :=
  (zkproofRoute_validates_inputs (fun _ => .fail "down")
    { jwt := some "j", extendedEphemeralPublicKey := some "k",
      maxEpoch := some 7, jwtRandomness := some "r", salt := none }).1
    (Or.inr (Or.inr (Or.inr (Or.inr rfl))))

/-! ## C9: derived salts fit the 128-bit salt domain -/

/-- Folding bytes below 256 into a base-256 accumulator stays below
`(acc + 1) * 256 ^ length`. -/
theorem foldl_base256_lt (bs : List Nat) :
    ∀ acc : Nat, (∀ b ∈ bs, b < 256) →
      bs.foldl (fun acc b => acc * 256 + b) acc < (acc + 1) * 256 ^ bs.length := by
  induction bs with
  | nil => intro acc _; simp
  | cons b t ih =>
    intro acc h
    have hb : b < 256 := h b (List.mem_cons_self _ _)
    have ht : ∀ x ∈ t, x < 256 := fun x hx => h x (List.mem_cons_of_mem _ hx)
    have step := ih (acc * 256 + b) ht
    calc (b :: t).foldl (fun acc b => acc * 256 + b) acc
        = t.foldl (fun acc b => acc * 256 + b) (acc * 256 + b) := rfl
      _ < (acc * 256 + b + 1) * 256 ^ t.length := step
      _ ≤ ((acc + 1) * 256) * 256 ^ t.length := by
          have : acc * 256 + b + 1 ≤ (acc + 1) * 256 := by nlinarith
          exact Nat.mul_le_mul_right _ this
      _ = (acc + 1) * 256 ^ (b :: t).length := by
          rw [List.length_cons, pow_succ]
          ring

/-- A byte list's base-256 value is below `256 ^ length`. -/
theorem bytesToNat_lt (bs : List Nat) (h : ∀ b ∈ bs, b < 256) :
    bytesToNat bs < 256 ^ bs.length := by
  have := foldl_base256_lt bs 0 h
  simpa [bytesToNat] using this

/-- C9: every salt the `/salt` route derives is the decimal rendering of a
non-negative integer strictly below `2 ^ 128`: it is built from the first
16 bytes of the HMAC-SHA256 digest, so it fits the zkLogin salt domain. -/
theorem deriveSalt_fits_128_bits (env : SaltServerEnv) (sub : String)
    (hdigest : ∀ b ∈ env.hmacSha256 env.masterSecret sub, b < 256) :
    ∃ n : Nat, n < 2 ^ 128 ∧ deriveSalt env sub = toString n := by
  refine ⟨bytesToNat ((env.hmacSha256 env.masterSecret sub).take 16), ?_, rfl⟩
  have hmem : ∀ b ∈ (env.hmacSha256 env.masterSecret sub).take 16, b < 256 :=
    fun b hb => hdigest b (List.mem_of_mem_take hb)
  have hlen : ((env.hmacSha256 env.masterSecret sub).take 16).length ≤ 16 :=
    List.length_take_le _ _
  calc bytesToNat ((env.hmacSha256 env.masterSecret sub).take 16)
      < 256 ^ ((env.hmacSha256 env.masterSecret sub).take 16).length :=
        bytesToNat_lt _ hmem
    _ ≤ 256 ^ 16 := Nat.pow_le_pow_right (by norm_num) hlen
    _ = 2 ^ 128 := by norm_num

/-- Witness for C9: a concrete all-`255` digest derives a salt below
`2 ^ 128`. -/
theorem deriveSalt_fits_128_bits_witness :
    ∃ n : Nat, n < 2 ^ 128 ∧
      deriveSalt { decode := fun _ => none,
                   hmacSha256 := fun _ _ => List.replicate 32 255,
                   masterSecret := "dev-secret", whitelist := [] } "user-42" =
        toString n :=
  deriveSalt_fits_128_bits
    { decode := fun _ => none, hmacSha256 := fun _ _ => List.replicate 32 255,
      masterSecret := "dev-secret", whitelist := [] } "user-42"
    (by intro b hb; rcases List.eq_of_mem_replicate hb with rfl; norm_num)

/-! ## C3: salt endpoint determinism -/

/-- C3: on every cache state reachable by the route (every cached entry
equals the keyed derivation for its subject — true in particular of the
empty cache the process starts with), a call whose token decodes to
subject `s` and passes the format/sub/audience checks returns exactly
`deriveSalt env s`, and the invariant is preserved; hence any two such
calls — cache hit or miss, before or after other calls — return the same
salt, and the cache never changes the result versus derivation from
scratch. -/
theorem saltRoute_deterministic (env : SaltServerEnv) (cache : SaltCache)
    (token : Option String) (decoded : ServerJwt)
    (hinv : SaltCacheInv env cache)
    (hfmt : (jsFalsyOpt token || splitDotCount (token.getD "") != 3) = false)
    (hdec : env.decode (token.getD "") = some decoded)
    (hsub : jsFalsyOpt decoded.sub = false)
    (haud : (jsFalsyOpt (normalizeAud decoded.aud) ||
      !(env.whitelist.contains ((normalizeAud decoded.aud).getD ""))) = false) :
    (saltRoute env cache token).1 = .ok (deriveSalt env (decoded.sub.getD ""))
    ∧ SaltCacheInv env (saltRoute env cache token).2 := by
  have hroute : saltRoute env cache token =
      match cache.lookup (decoded.sub.getD "") with
      | some s => (.ok s, cache)
      | none =>
        (.ok (deriveSalt env (decoded.sub.getD "")),
         (decoded.sub.getD "", deriveSalt env (decoded.sub.getD "")) :: cache) := by
    simp only [saltRoute, hfmt, hdec, hsub, haud, if_false, Bool.false_eq_true]
  cases hl : cache.lookup (decoded.sub.getD "") with
  | some s =>
    have hs : s = deriveSalt env (decoded.sub.getD "") :=
      hinv _ (lookup_mem_of_eq_some hl)
    rw [hroute, hl]
    exact ⟨by rw [hs], hinv⟩
  | none =>
    rw [hroute, hl]
    refine ⟨rfl, ?_⟩
    intro p hp
    rcases List.mem_cons.1 hp with rfl | hp
    · rfl
    · exact hinv p hp

/-- Concrete salt-server environment for the C3 witness. -/
def wSaltEnv : SaltServerEnv :=
  { decode := fun t =>
      if t = "h.p.s" then
        some { sub := some "user-42", aud := some (.scalar "client-a") }
      else none
    hmacSha256 := fun _ sub => [7, 1, 2] ++ (sub.toList.map Char.toNat)
    masterSecret := "dev-secret"
    whitelist := ["client-a"] }

/-- Witness for C3: two successive calls with the subject-`"user-42"`
token — the first a cache miss, the second a cache hit — both return the
pure derivation. -/
theorem saltRoute_deterministic_witness :
    (saltRoute wSaltEnv [] (some "h.p.s")).1 = .ok (deriveSalt wSaltEnv "user-42")
    ∧ (saltRoute wSaltEnv (saltRoute wSaltEnv [] (some "h.p.s")).2 (some "h.p.s")).1 =
        .ok (deriveSalt wSaltEnv "user-42") := by
  have h1 := saltRoute_deterministic wSaltEnv [] (some "h.p.s")
    { sub := some "user-42", aud := some (.scalar "client-a") }
    (by intro p hp; cases hp) (by decide) (by decide) (by decide) (by decide)
  have h2 := saltRoute_deterministic wSaltEnv
    (saltRoute wSaltEnv [] (some "h.p.s")).2 (some "h.p.s")
    { sub := some "user-42", aud := some (.scalar "client-a") }
    h1.2 (by decide) (by decide) (by decide) (by decide)
  exact ⟨h1.1, h2.1⟩

/-! ## C4: `prepareLogin` picks `maxEpoch = epoch + 2` -/

/-- C4: whenever the epoch fetch succeeds with numeric value `e`,
`prepareLogin` chooses `maxEpoch = e + 2` (strictly greater than `e`) and
persists that bound together with the fresh randomness and the nonce
derived from the ephemeral public key, `maxEpoch` and the randomness. -/
theorem prepareLogin_picks_epoch_plus_two (sdk : Sdk) (env : ClientEnv)
    (clientId redirectUrl : String) (st : ClientState) (epochInfo : EpochInfo)
    (hfetch : env.epochResp = some epochInfo) :
    (prepareLogin sdk env clientId redirectUrl st).1 =
      .ok (authUrlFor sdk clientId redirectUrl
        (sdk.generateNonce env.freshPublic (sdk.numOf epochInfo.epoch + 2)
          env.freshRandomness))
    ∧ sdk.numOf epochInfo.epoch < sdk.numOf epochInfo.epoch + 2
    ∧ ((prepareLogin sdk env clientId redirectUrl st).2.1.session.getItem
        KEY_MAX_EPOCH = some (toString (sdk.numOf epochInfo.epoch + 2)))
    ∧ ((prepareLogin sdk env clientId redirectUrl st).2.1.session.getItem
        KEY_RANDOMNESS = some env.freshRandomness)
    ∧ ((prepareLogin sdk env clientId redirectUrl st).2.1.session.getItem
        KEY_NONCE = some (sdk.generateNonce env.freshPublic
          (sdk.numOf epochInfo.epoch + 2) env.freshRandomness))
    ∧ ((prepareLogin sdk env clientId redirectUrl st).2.1.session.getItem
        KEY_EPHEMERAL_PRIVATE_KEY = some env.freshSecret) := by
  refine ⟨?_, by omega, ?_, ?_, ?_, ?_⟩ <;>
    simp [prepareLogin, hfetch, Storage.getItem_setItem, Storage.getItem,
      Storage.setItem, KEY_MAX_EPOCH, KEY_RANDOMNESS, KEY_NONCE,
      KEY_EPHEMERAL_PRIVATE_KEY]

/-- Decimal value of a digit string (a computable stand-in for JS
`Number(...)` on the numeric strings this code stores). -/
def natOfString (s : String) : Nat :=
  s.toList.foldl (fun n c => n * 10 + (c.toNat - '0'.toNat)) 0

/-- A trivial concrete SDK used to instantiate universally quantified
theorems on closed inputs. -/
def trivSdk : Sdk where
  jwtDecode := fun _ => none
  pubOfSecret := fun _ => none
  generateNonce := fun p m r => p ++ "|" ++ toString m ++ "|" ++ r
  numOf := natOfString
  jwtToAddress := fun _ _ => ""
  extendPub := fun p => p
  signTx := fun _ _ _ => ("", "")
  genAddressSeed := fun _ _ _ _ => ""
  getZkLoginSignature := fun _ _ _ _ => ""
  parseProof := fun _ => none
  stringifyProof := fun _ => ""
  parseJwt := fun _ => none
  stringifyJwt := fun _ => ""
  urlEncode := fun s => s

/-- A concrete epoch record with value `"5"`. -/
def epoch5 : EpochInfo where
  epoch := "5"
  epochDurationMs := "0"
  epochStartTimestampMs := "0"

/-- A concrete environment whose epoch fetch returns `"5"`. -/
def trivEnv : ClientEnv where
  epochResp := some epoch5
  freshSecret := "sk-1"
  freshPublic := "pk-1"
  freshRandomness := "r-1"
  saltResp := fun _ => .fail ""
  backupResp := fun _ => .fail
  proofResp := fun _ => .fail ""
  execResp := fun _ _ => .fail ""
  now := "t0"

/-- The empty browser state. -/
def emptyState : ClientState where
  session := fun _ => none
  localS := fun _ => none

/-- Witness for C4: with a fetched epoch of `"5"`, the stored bound is
`"7"` (`beginSession(epoch=5)` → `maxEpoch=7`). -/
theorem prepareLogin_picks_epoch_plus_two_witness :
    (prepareLogin trivSdk trivEnv "cid" "rurl" emptyState).2.1.session.getItem
      KEY_MAX_EPOCH = some "7" := by
  have h := (prepareLogin_picks_epoch_plus_two trivSdk trivEnv "cid" "rurl"
    emptyState epoch5 rfl).2.2.1
  rw [h]
  decide

/-! ## C2: `completeZkLogin` nonce gate -/

/-- C2: for a stored session (the three session fields present), if the
stored nonce does not strictly equal the token's embedded nonce — in
particular when it differs in even one character, or when either is
absent — `completeZkLogin` fails with the nonce-mismatch error, dispatches
no network call and leaves the state unchanged; if the stored nonce
matches but the nonce re-derived from the stored key, maxEpoch and
randomness does not, it fails likewise with the ephemeral-key-mismatch
error; and conversely, whenever any network call is dispatched at all,
both the stored-nonce check and the re-derivation check passed. -/
theorem completeZkLogin_nonce_gate (sdk : Sdk) (env : ClientEnv)
    (st : ClientState) (encodedJWT : String) (jwt : JwtPayload)
    (hdec : sdk.jwtDecode encodedJWT = some jwt)
    (hpresent : (jsFalsyOpt (st.session.getItem KEY_EPHEMERAL_PRIVATE_KEY) ||
      jsFalsyOpt (st.session.getItem KEY_MAX_EPOCH) ||
      jsFalsyOpt (st.session.getItem KEY_RANDOMNESS)) = false) :
    (jsStrictEq (st.session.getItem KEY_NONCE) jwt.nonce = false →
      completeZkLogin sdk env st encodedJWT = (.error .nonceMismatch, st, []))
    ∧ (∀ pub, jsStrictEq (st.session.getItem KEY_NONCE) jwt.nonce = true →
        sdk.pubOfSecret ((st.session.getItem KEY_EPHEMERAL_PRIVATE_KEY).getD "") =
          some pub →
        jsStrictEq (some (sdk.generateNonce pub
            (sdk.numOf ((st.session.getItem KEY_MAX_EPOCH).getD ""))
            ((st.session.getItem KEY_RANDOMNESS).getD ""))) jwt.nonce = false →
        completeZkLogin sdk env st encodedJWT = (.error .ephemeralKeyMismatch, st, []))
    ∧ ((completeZkLogin sdk env st encodedJWT).2.2 ≠ [] →
        jsStrictEq (st.session.getItem KEY_NONCE) jwt.nonce = true ∧
        ∃ pub, sdk.pubOfSecret
            ((st.session.getItem KEY_EPHEMERAL_PRIVATE_KEY).getD "") = some pub ∧
          jsStrictEq (some (sdk.generateNonce pub
            (sdk.numOf ((st.session.getItem KEY_MAX_EPOCH).getD ""))
            ((st.session.getItem KEY_RANDOMNESS).getD ""))) jwt.nonce = true) := by
  refine ⟨?_, ?_, ?_⟩
  · intro hmis
    simp [completeZkLogin, hdec, hpresent, hmis]
  · intro pub hmatch hpub hver
    simp [completeZkLogin, hdec, hpresent, hmatch, hpub, hver]
  · intro htrace
    by_cases hmatch : jsStrictEq (st.session.getItem KEY_NONCE) jwt.nonce = true
    · refine ⟨hmatch, ?_⟩
      cases hpub : sdk.pubOfSecret
          ((st.session.getItem KEY_EPHEMERAL_PRIVATE_KEY).getD "") with
      | none =>
        exfalso
        apply htrace
        simp [completeZkLogin, hdec, hpresent, hmatch, hpub]
      | some pub =>
        by_cases hver : jsStrictEq (some (sdk.generateNonce pub
            (sdk.numOf ((st.session.getItem KEY_MAX_EPOCH).getD ""))
            ((st.session.getItem KEY_RANDOMNESS).getD ""))) jwt.nonce = true
        · exact ⟨pub, rfl, hver⟩
        · exfalso
          apply htrace
          rw [Bool.not_eq_true] at hver
          simp [completeZkLogin, hdec, hpresent, hmatch, hpub, hver]
    · exfalso
      apply htrace
      rw [Bool.not_eq_true] at hmatch
      simp [completeZkLogin, hdec, hpresent, hmatch]

/-- Token-decoding SDK used by the nonce-gate witnesses: decodes
`"tok-N9"` to a payload whose nonce is `"N9"`, and always re-derives the
nonce `"N9"`. -/
def nonceSdk : Sdk :=
  { trivSdk with
    jwtDecode := fun t =>
      if t = "tok-N9" then some { sub := some "user-42", nonce := some "N9" }
      else none
    pubOfSecret := fun s => if s = "sk-1" then some "pk-1" else none
    generateNonce := fun _ _ _ => "N9" }

/-- A stored session whose nonce is `"N8"` (one character away from the
token's `"N9"`). -/
def mismatchState : ClientState where
  session := fun k =>
    if k = KEY_EPHEMERAL_PRIVATE_KEY then some "sk-1"
    else if k = KEY_MAX_EPOCH then some "7"
    else if k = KEY_RANDOMNESS then some "r-1"
    else if k = KEY_NONCE then some "N8"
    else none
  localS := fun _ => none

/-- Witness for C2: a token nonce differing in one character from the
stored nonce makes `completeZkLogin` fail with the nonce-mismatch error,
no network call and unchanged state. -/
theorem completeZkLogin_nonce_gate_witness :
    completeZkLogin nonceSdk trivEnv mismatchState "tok-N9" =
      (.error .nonceMismatch, mismatchState, []) :=
  (completeZkLogin_nonce_gate nonceSdk trivEnv mismatchState "tok-N9"
    { sub := some "user-42", nonce := some "N9" } rfl (by decide)).1 (by decide)

/-! ## C7: backup-email failures never affect the login result -/

/-- The calls recorded by the backup step: the backup request is dispatched
(or skipped) independently of the endpoint's answer. -/
theorem backupStep_calls (env : ClientEnv) (st : ClientState) (jwt : JwtPayload)
    (userSalt : String) :
    (backupStep env st jwt userSalt).2 =
      if (jsFalsyOpt (st.session.getItem KEY_SALT_BACKUP_SENT) &&
          !(jsFalsyOpt jwt.sub)) = true then
        [NetCall.backup (backupReqFor env jwt userSalt)]
      else [] := by
  by_cases h : (jsFalsyOpt (st.session.getItem KEY_SALT_BACKUP_SENT) &&
      !(jsFalsyOpt jwt.sub)) = true
  · simp only [backupStep]
    rw [if_pos h, if_pos h]
    cases env.backupResp (backupReqFor env jwt userSalt) <;> rfl
  · simp only [backupStep]
    rw [if_neg h, if_neg h]

/-- The result and dispatched calls of `finishLogin` depend neither on the
incoming state (it only writes to it) nor on the backup endpoint. -/
theorem finishLogin_indep (sdk : Sdk) (envA envB : ClientEnv)
    (stA stB : ClientState) (encodedJWT : String) (jwt : JwtPayload)
    (pub maxEpochStr randomness userSalt : String)
    (hproof : envA.proofResp = envB.proofResp) :
    (finishLogin sdk envA stA encodedJWT jwt pub maxEpochStr randomness userSalt).1 =
      (finishLogin sdk envB stB encodedJWT jwt pub maxEpochStr randomness userSalt).1
    ∧ (finishLogin sdk envA stA encodedJWT jwt pub maxEpochStr randomness userSalt).2.2 =
      (finishLogin sdk envB stB encodedJWT jwt pub maxEpochStr randomness userSalt).2.2 := by
  cases h : envA.proofResp (proofReqFor sdk encodedJWT pub maxEpochStr randomness userSalt) with
  | fail text => constructor <;> simp [finishLogin, h, ← hproof]
  | ok proof => constructor <;> simp [finishLogin, h, ← hproof]

/-- C7: the returned value of `completeZkLogin` and the full sequence of
network calls it dispatches are the same for any two environments that
agree on everything except the salt-backup endpoint: a backup failure is
swallowed, the flow still reaches address derivation and the proof
request, and the overall result is identical to the case where the backup
succeeds. -/
theorem completeZkLogin_backup_failure_harmless (sdk : Sdk)
    (envA envB : ClientEnv) (st : ClientState) (encodedJWT : String)
    (hsalt : envA.saltResp = envB.saltResp)
    (hproof : envA.proofResp = envB.proofResp)
    (hnow : envA.now = envB.now) :
    (completeZkLogin sdk envA st encodedJWT).1 =
      (completeZkLogin sdk envB st encodedJWT).1
    ∧ (completeZkLogin sdk envA st encodedJWT).2.2 =
      (completeZkLogin sdk envB st encodedJWT).2.2 := by
  unfold completeZkLogin
  cases sdk.jwtDecode encodedJWT with
  | none => exact ⟨rfl, rfl⟩
  | some jwt =>
    by_cases h1 : (jsFalsyOpt (st.session.getItem KEY_EPHEMERAL_PRIVATE_KEY) ||
        jsFalsyOpt (st.session.getItem KEY_MAX_EPOCH) ||
        jsFalsyOpt (st.session.getItem KEY_RANDOMNESS)) = true
    · simp only [h1, if_true]; exact ⟨by trivial, by trivial⟩
    · rw [Bool.not_eq_true] at h1
      simp only [h1, Bool.false_eq_true, if_false]
      by_cases h2 : jsStrictEq (st.session.getItem KEY_NONCE) jwt.nonce = true
      · simp only [h2, Bool.not_true, Bool.false_eq_true, if_false]
        cases sdk.pubOfSecret
            ((st.session.getItem KEY_EPHEMERAL_PRIVATE_KEY).getD "") with
        | none => exact ⟨rfl, rfl⟩
        | some pub =>
          by_cases h3 : jsStrictEq (some (sdk.generateNonce pub
              (sdk.numOf ((st.session.getItem KEY_MAX_EPOCH).getD ""))
              ((st.session.getItem KEY_RANDOMNESS).getD ""))) jwt.nonce = true
          · simp only [h3, Bool.not_true, Bool.false_eq_true, if_false]
            unfold saltAndFinish
            rw [← hsalt]
            cases hres : envA.saltResp encodedJWT with
            | fail details => exact ⟨rfl, rfl⟩
            | ok userSalt =>
              simp only
              have hfin := finishLogin_indep sdk envA envB
                (backupStep envA
                  { session := st.session.setItem KEY_USER_SALT userSalt
                    localS := st.localS.setItem (saltStorageKey jwt.sub) userSalt }
                  jwt userSalt).1
                (backupStep envB
                  { session := st.session.setItem KEY_USER_SALT userSalt
                    localS := st.localS.setItem (saltStorageKey jwt.sub) userSalt }
                  jwt userSalt).1
                encodedJWT jwt pub
                ((st.session.getItem KEY_MAX_EPOCH).getD "")
                ((st.session.getItem KEY_RANDOMNESS).getD "") userSalt hproof
              have hreq : backupReqFor envA jwt userSalt =
                  backupReqFor envB jwt userSalt := by
                simp [backupReqFor, hnow]
              refine ⟨hfin.1, ?_⟩
              rw [backupStep_calls, backupStep_calls, hfin.2, hreq]
          · simp only [h3, Bool.not_true]
            exact ⟨rfl, rfl⟩
      · rw [Bool.not_eq_true] at h2
        simp only [h2, Bool.not_false, if_true]
        exact ⟨by trivial, by trivial⟩

/-- Environment identical to `trivEnv` except that the backup endpoint
succeeds instead of failing. -/
def trivEnvBackupOk : ClientEnv := { trivEnv with backupResp := fun _ => .ok }

/-- Witness for C7: with the backup endpoint failing (`trivEnv`) versus
succeeding (`trivEnvBackupOk`), `completeZkLogin` returns the same value
and dispatches the same calls. -/
theorem completeZkLogin_backup_failure_harmless_witness :
    (completeZkLogin nonceSdk trivEnv mismatchState "tok-N9").1 =
      (completeZkLogin nonceSdk trivEnvBackupOk mismatchState "tok-N9").1
    ∧ (completeZkLogin nonceSdk trivEnv mismatchState "tok-N9").2.2 =
      (completeZkLogin nonceSdk trivEnvBackupOk mismatchState "tok-N9").2.2 :=
  completeZkLogin_backup_failure_harmless nonceSdk trivEnv trivEnvBackupOk
    mismatchState "tok-N9" rfl rfl rfl

/-! ## C6: audience list/scalar normalization at signing time -/

/-- Reading a key other than the one just written sees the old storage. -/
theorem getItem_set_other (s : Storage) (k v k' : String) (h : k' ≠ k) :
    (s.setItem k v).getItem k' = s.getItem k' := by
  simp [Storage.getItem_setItem, h]

/-- Reading the key just written sees the new value. -/
theorem getItem_set_same (s : Storage) (k v : String) :
    (s.setItem k v).getItem k = some v := by
  simp [Storage.getItem_setItem]

/-- `execSignAndSubmit` only uses the decoded JWT through its normalized
audience and its subject. -/
theorem execSignAndSubmit_congr (sdk : Sdk) (env : ClientEnv)
    (epk maxE salt : String) (addr : Option String)
    (proof : PartialZkLoginSignature) (jwt1 jwt2 : JwtPayload) (tx : String)
    (haud : normalizeAud jwt1.aud = normalizeAud jwt2.aud)
    (hsub : jwt1.sub = jwt2.sub) :
    execSignAndSubmit sdk env epk maxE salt addr proof jwt1 tx =
      execSignAndSubmit sdk env epk maxE salt addr proof jwt2 tx := by
  unfold execSignAndSubmit
  rw [haud, hsub]

/-- C6: the composite signature assembled by `executeZkLoginTransaction`
— in particular its address seed — is identical whether the stored
token's audience claim is the scalar `a` or a list whose first entry is
`a` (two states that differ only in that respect produce identical
results and identical network calls); and when the audience claim is
absent, signing fails with the missing-audience error before any
submission. -/
theorem executeZkLogin_aud_normalization :
    (∀ (sdk : Sdk) (env : ClientEnv) (st : ClientState) (tx j1 j2 : String)
        (jwt1 jwt2 : JwtPayload) (a : String) (rest : List String),
      sdk.parseJwt j1 = some jwt1 → sdk.parseJwt j2 = some jwt2 →
      jwt1.aud = some (.scalar a) → jwt2.aud = some (.list (a :: rest)) →
      jwt1.sub = jwt2.sub → j1 ≠ "" → j2 ≠ "" →
      executeZkLoginTransaction sdk env
        { st with session := st.session.setItem KEY_DECODED_JWT j1 } tx =
      executeZkLoginTransaction sdk env
        { st with session := st.session.setItem KEY_DECODED_JWT j2 } tx)
    ∧ (∀ (sdk : Sdk) (env : ClientEnv) (st : ClientState) (tx : String)
        (proof : PartialZkLoginSignature) (jwt : JwtPayload) (pub : String),
      (jsFalsyOpt (st.session.getItem KEY_EPHEMERAL_PRIVATE_KEY) ||
        jsFalsyOpt (st.session.getItem KEY_ZK_PROOF) ||
        jsFalsyOpt (st.session.getItem KEY_USER_SALT) ||
        jsFalsyOpt (st.session.getItem KEY_DECODED_JWT) ||
        jsFalsyOpt (st.session.getItem KEY_MAX_EPOCH)) = false →
      sdk.parseProof ((st.session.getItem KEY_ZK_PROOF).getD "") = some proof →
      sdk.parseJwt ((st.session.getItem KEY_DECODED_JWT).getD "") = some jwt →
      sdk.pubOfSecret ((st.session.getItem KEY_EPHEMERAL_PRIVATE_KEY).getD "") =
        some pub →
      jsFalsyOpt (st.session.getItem KEY_ZKLOGIN_ADDRESS) = false →
      jwt.aud = none →
      executeZkLoginTransaction sdk env st tx = (.error .missingAudience, [])) := by
  constructor
  · intro sdk env st tx j1 j2 jwt1 jwt2 a rest h1 h2 ha1 ha2 hsub hj1 hj2
    have hne1 : KEY_EPHEMERAL_PRIVATE_KEY ≠ KEY_DECODED_JWT := by decide
    have hne2 : KEY_MAX_EPOCH ≠ KEY_DECODED_JWT := by decide
    have hne3 : KEY_ZK_PROOF ≠ KEY_DECODED_JWT := by decide
    have hne4 : KEY_USER_SALT ≠ KEY_DECODED_JWT := by decide
    have hne5 : KEY_ZKLOGIN_ADDRESS ≠ KEY_DECODED_JWT := by decide
    have hfj1 : jsFalsyOpt (some j1) = false := by simp [jsFalsyOpt, hj1]
    have hfj2 : jsFalsyOpt (some j2) = false := by simp [jsFalsyOpt, hj2]
    simp only [executeZkLoginTransaction,
      getItem_set_other _ _ _ _ hne1, getItem_set_other _ _ _ _ hne2,
      getItem_set_other _ _ _ _ hne3, getItem_set_other _ _ _ _ hne4,
      getItem_set_other _ _ _ _ hne5, getItem_set_same,
      hfj1, hfj2, Bool.false_or, Bool.or_false, Option.getD_some, h1, h2]
    by_cases hc : (jsFalsyOpt (st.session.getItem KEY_EPHEMERAL_PRIVATE_KEY) ||
        jsFalsyOpt (st.session.getItem KEY_ZK_PROOF) ||
        jsFalsyOpt (st.session.getItem KEY_USER_SALT) ||
        jsFalsyOpt (st.session.getItem KEY_MAX_EPOCH)) = true
    · simp only [hc, if_true]
    · rw [Bool.not_eq_true] at hc
      simp only [hc, Bool.false_eq_true, if_false]
      cases hpp : sdk.parseProof ((st.session.getItem KEY_ZK_PROOF).getD "") with
      | none => rfl
      | some proof =>
        exact execSignAndSubmit_congr sdk env _ _ _ _ proof jwt1 jwt2 tx
          (by rw [ha1, ha2]; rfl) hsub
  · intro sdk env st tx proof jwt pub hc hpp hpj hpub haddr haud
    simp only [executeZkLoginTransaction, hc, Bool.false_eq_true, if_false,
      hpp, hpj]
    simp only [execSignAndSubmit, hpub, haddr, haud, Bool.false_eq_true,
      if_false, normalizeAud]
    rfl

/-- A concrete proof bundle for closed instantiations. -/
def wProof : PartialZkLoginSignature where
  proofA := "a"
  proofB := "b"
  proofC := "c"
  issValue := "iss"
  indexMod4 := 1
  headerBase64 := "hdr"

/-- Concrete SDK for closed `executeZkLoginTransaction` runs: parses three
canned decoded-JWT strings (scalar audience, list audience, no audience). -/
def execSdk : Sdk :=
  { trivSdk with
    pubOfSecret := fun s => if s = "sk-1" then some "pk-1" else none
    parseProof := fun s => if s = "proof-json" then some wProof else none
    parseJwt := fun s =>
      if s = "dj-scalar" then
        some { sub := some "user-42", aud := some (.scalar "client-a") }
      else if s = "dj-list" then
        some { sub := some "user-42", aud := some (.list ["client-a"]) }
      else if s = "dj-noaud" then some { sub := some "user-42" }
      else none
    signTx := fun _ _ tx => ("bytes-" ++ tx, "sig-" ++ tx)
    genAddressSeed := fun salt k sub aud =>
      salt ++ "/" ++ k ++ "/" ++ sub ++ "/" ++ aud
    getZkLoginSignature := fun _ seed m usig => seed ++ "#" ++ m ++ "#" ++ usig }

/-- Environment whose transaction submission succeeds. -/
def execEnv : ClientEnv := { trivEnv with execResp := fun b _ => .ok ("digest:" ++ b) }

/-- A complete authenticated-session state with `max_epoch = "10"`. -/
def execState : ClientState where
  session := fun k =>
    if k = KEY_EPHEMERAL_PRIVATE_KEY then some "sk-1"
    else if k = KEY_MAX_EPOCH then some "10"
    else if k = KEY_ZK_PROOF then some "proof-json"
    else if k = KEY_USER_SALT then some "1234"
    else if k = KEY_DECODED_JWT then some "dj-scalar"
    else if k = KEY_ZKLOGIN_ADDRESS then some "0xabc"
    else none
  localS := fun _ => none

/-- `execState` with a stored token that has no audience claim. -/
def noAudState : ClientState :=
  { execState with session := execState.session.setItem KEY_DECODED_JWT "dj-noaud" }

/-- Witness for C6: with audience `"client-a"` stored as a scalar versus
as the one-element list, `executeZkLoginTransaction` produces identical
results; with the audience absent it fails with the missing-audience
error. -/
theorem executeZkLogin_aud_normalization_witness :
    (executeZkLoginTransaction execSdk execEnv
        { execState with
          session := execState.session.setItem KEY_DECODED_JWT "dj-scalar" } "tx" =
      executeZkLoginTransaction execSdk execEnv
        { execState with
          session := execState.session.setItem KEY_DECODED_JWT "dj-list" } "tx")
    ∧ executeZkLoginTransaction execSdk execEnv noAudState "tx" =
        (.error .missingAudience, []) :=
  ⟨executeZkLogin_aud_normalization.1 execSdk execEnv execState "tx"
      "dj-scalar" "dj-list"
      { sub := some "user-42", aud := some (.scalar "client-a") }
      { sub := some "user-42", aud := some (.list ["client-a"]) }
      "client-a" [] rfl rfl rfl rfl rfl (by decide) (by decide),
   executeZkLogin_aud_normalization.2 execSdk execEnv noAudState "tx"
      wProof { sub := some "user-42" } "pk-1"
      (by decide) rfl rfl rfl (by decide) rfl⟩

/-! ## C1: `executeZkLoginTransaction` performs no expiry check -/

/-- Counterexample to C1: a complete session whose stored `max_epoch` is
`"10"` — i.e. already below a current ledger epoch of 11 — is signed and
submitted anyway: `executeZkLoginTransaction` never consults any
current-epoch value (its inputs contain none), has no session-expiry
failure, and here returns the ledger's success result after dispatching
the submission, instead of failing before submitting as the claim
requires. -/
theorem executeZkLogin_no_expiry_check_counterexample :
    execState.session.getItem KEY_MAX_EPOCH = some "10"
    ∧ (executeZkLoginTransaction execSdk execEnv execState "tx").1 =
        .ok "digest:bytes-tx"
    ∧ (executeZkLoginTransaction execSdk execEnv execState "tx").2 =
        [NetCall.submit "bytes-tx" "1234/sub/user-42/client-a#10#sig-tx"] := by
  refine ⟨rfl, ?_, ?_⟩ <;> rfl

/-- C1 (amended): `executeZkLoginTransaction` contains no expiry check:
for every state whose session fields are present and parse — with the
stored `max_epoch` completely arbitrary, in particular below the current
ledger epoch — it proceeds to sign, dispatches exactly one submission to
the ledger and returns the ledger's answer; it never fails with a
session-expiry error (no such failure exists in the function). -/
theorem executeZkLogin_proceeds_without_expiry_check (sdk : Sdk)
    (env : ClientEnv) (st : ClientState) (tx : String)
    (proof : PartialZkLoginSignature) (jwt : JwtPayload) (pub a sub : String)
    (hc : (jsFalsyOpt (st.session.getItem KEY_EPHEMERAL_PRIVATE_KEY) ||
      jsFalsyOpt (st.session.getItem KEY_ZK_PROOF) ||
      jsFalsyOpt (st.session.getItem KEY_USER_SALT) ||
      jsFalsyOpt (st.session.getItem KEY_DECODED_JWT) ||
      jsFalsyOpt (st.session.getItem KEY_MAX_EPOCH)) = false)
    (hpp : sdk.parseProof ((st.session.getItem KEY_ZK_PROOF).getD "") = some proof)
    (hpj : sdk.parseJwt ((st.session.getItem KEY_DECODED_JWT).getD "") = some jwt)
    (hpub : sdk.pubOfSecret ((st.session.getItem KEY_EPHEMERAL_PRIVATE_KEY).getD "") =
      some pub)
    (haddr : jsFalsyOpt (st.session.getItem KEY_ZKLOGIN_ADDRESS) = false)
    (haud : normalizeAud jwt.aud = some a) (ha : (a == "") = false)
    (hsub : jwt.sub = some sub) :
    ∃ bytes signature,
      (executeZkLoginTransaction sdk env st tx).2 = [NetCall.submit bytes signature]
      ∧ (executeZkLoginTransaction sdk env st tx).1 =
          (match env.execResp bytes signature with
           | .ok digest => .ok digest
           | .fail text => .error (.executeFailed text)) := by
  have hfa : jsFalsyOpt (some a) = false := ha
  simp only [executeZkLoginTransaction, hc, Bool.false_eq_true, if_false, hpp, hpj]
  simp only [execSignAndSubmit, hpub, haddr, Bool.false_eq_true, if_false,
    haud, hfa, hsub, Option.getD_some]
  refine ⟨(sdk.signTx ((st.session.getItem KEY_EPHEMERAL_PRIVATE_KEY).getD "")
      ((st.session.getItem KEY_ZKLOGIN_ADDRESS).getD "") tx).1,
    sdk.getZkLoginSignature proof
      (sdk.genAddressSeed ((st.session.getItem KEY_USER_SALT).getD "") "sub" sub a)
      ((st.session.getItem KEY_MAX_EPOCH).getD "")
      (sdk.signTx ((st.session.getItem KEY_EPHEMERAL_PRIVATE_KEY).getD "")
        ((st.session.getItem KEY_ZKLOGIN_ADDRESS).getD "") tx).2, ?_, ?_⟩ <;>
    cases env.execResp
      (sdk.signTx ((st.session.getItem KEY_EPHEMERAL_PRIVATE_KEY).getD "")
        ((st.session.getItem KEY_ZKLOGIN_ADDRESS).getD "") tx).1
      (sdk.getZkLoginSignature proof
        (sdk.genAddressSeed ((st.session.getItem KEY_USER_SALT).getD "") "sub" sub a)
        ((st.session.getItem KEY_MAX_EPOCH).getD "")
        (sdk.signTx ((st.session.getItem KEY_EPHEMERAL_PRIVATE_KEY).getD "")
          ((st.session.getItem KEY_ZKLOGIN_ADDRESS).getD "") tx).2) <;> rfl

/-- Witness for the amended C1: at the concrete `max_epoch = "10"` state
the function dispatches one submission and returns the ledger result. -/
theorem executeZkLogin_proceeds_without_expiry_check_witness :
    ∃ bytes signature,
      (executeZkLoginTransaction execSdk execEnv execState "tx").2 =
        [NetCall.submit bytes signature]
      ∧ (executeZkLoginTransaction execSdk execEnv execState "tx").1 =
          (match execEnv.execResp bytes signature with
           | .ok digest => .ok digest
           | .fail text => .error (.executeFailed text)) :=
  executeZkLogin_proceeds_without_expiry_check execSdk execEnv execState "tx"
    wProof { sub := some "user-42", aud := some (.scalar "client-a") }
    "pk-1" "client-a" "user-42"
    (by decide) rfl rfl rfl (by decide) rfl (by decide) rfl

/-! ## C5: a token without `sub` still reaches the salt endpoint -/

/-- SDK that decodes `"tok-nosub"` to a payload with a nonce but no `sub`
claim, and always re-derives that nonce. -/
def noSubSdk : Sdk :=
  { trivSdk with
    jwtDecode := fun t => if t = "tok-nosub" then some { nonce := some "N9" } else none
    pubOfSecret := fun s => if s = "sk-1" then some "pk-1" else none
    generateNonce := fun _ _ _ => "N9" }

/-- A stored session whose nonce `"N9"` matches the token's. -/
def matchState : ClientState where
  session := fun k =>
    if k = KEY_EPHEMERAL_PRIVATE_KEY then some "sk-1"
    else if k = KEY_MAX_EPOCH then some "7"
    else if k = KEY_RANDOMNESS then some "r-1"
    else if k = KEY_NONCE then some "N9"
    else none
  localS := fun _ => none

/-- Environment whose salt endpoint answers as the server does for a
token without `sub`: a 403 with details `Missing user subject (sub)`. -/
def saltRejectEnv : ClientEnv :=
  { trivEnv with saltResp := fun _ => .fail "Missing user subject (sub)" }

/-- Counterexample to C5: for a token with no `sub` claim (and a matching
nonce), `completeZkLogin` is not rejected client-side before any network
call — it dispatches the salt request (one network call to the salt
endpoint is observed) and only then fails with the endpoint's error. -/
theorem completeZkLogin_subless_dispatches_salt_counterexample :
    (completeZkLogin noSubSdk saltRejectEnv matchState "tok-nosub").2.2 =
      [NetCall.salt "tok-nosub"]
    ∧ (completeZkLogin noSubSdk saltRejectEnv matchState "tok-nosub").1 =
        .error (.saltServiceError "Missing user subject (sub)") := by
  constructor <;> rfl

/-- C5 (amended): a token lacking `sub` is rejected by the **salt
endpoint**, not client-side: the server's `/salt` route answers
`403 Missing user subject (sub)` without touching the cache, and
`completeZkLogin` (once its nonce checks pass) always dispatches the salt
request first, then fails on that rejection with exactly the one salt
call in its trace — so no proof request is ever dispatched, but a
network call to the salt endpoint is. -/
theorem completeZkLogin_subless_salt_rejection :
    (∀ (senv : SaltServerEnv) (cache : SaltCache) (token : Option String)
        (d : ServerJwt),
      (jsFalsyOpt token || splitDotCount (token.getD "") != 3) = false →
      senv.decode (token.getD "") = some d →
      jsFalsyOpt d.sub = true →
      saltRoute senv cache token = (.forbidden "Missing user subject (sub)", cache))
    ∧ (∀ (sdk : Sdk) (env : ClientEnv) (st : ClientState) (tok : String)
        (jwt : JwtPayload) (pub details : String),
      sdk.jwtDecode tok = some jwt →
      (jsFalsyOpt (st.session.getItem KEY_EPHEMERAL_PRIVATE_KEY) ||
        jsFalsyOpt (st.session.getItem KEY_MAX_EPOCH) ||
        jsFalsyOpt (st.session.getItem KEY_RANDOMNESS)) = false →
      jsStrictEq (st.session.getItem KEY_NONCE) jwt.nonce = true →
      sdk.pubOfSecret ((st.session.getItem KEY_EPHEMERAL_PRIVATE_KEY).getD "") =
        some pub →
      jsStrictEq (some (sdk.generateNonce pub
        (sdk.numOf ((st.session.getItem KEY_MAX_EPOCH).getD ""))
        ((st.session.getItem KEY_RANDOMNESS).getD ""))) jwt.nonce = true →
      env.saltResp tok = .fail details →
      completeZkLogin sdk env st tok =
        (.error (.saltServiceError details), st, [NetCall.salt tok])) := by
  constructor
  · intro senv cache token d hfmt hdec hsub
    simp only [saltRoute, hfmt, Bool.false_eq_true, if_false, hdec, hsub, if_true]
  · intro sdk env st tok jwt pub details hdec hpres hnonce hpub hver hsalt
    simp only [completeZkLogin, hdec, hpres, Bool.false_eq_true, if_false,
      hnonce, Bool.not_true, hpub, hver]
    simp only [saltAndFinish, hsalt]

/-- Salt-server environment decoding `"x.y.z"` to a payload without `sub`. -/
def noSubSaltEnv : SaltServerEnv where
  decode := fun t =>
    if t = "x.y.z" then some { sub := none, aud := none, iss := none, nonce := none }
    else none
  hmacSha256 := fun _ _ => List.replicate 32 0
  masterSecret := "m"
  whitelist := ["client-a"]

/-- Witness for the amended C5: the server rejects the sub-less token
`"x.y.z"` with `Missing user subject (sub)` leaving the cache unchanged,
and the client, on that rejection, fails after exactly one salt call. -/
theorem completeZkLogin_subless_salt_rejection_witness :
    saltRoute noSubSaltEnv [] (some "x.y.z") =
      (.forbidden "Missing user subject (sub)", [])
    ∧ completeZkLogin noSubSdk saltRejectEnv matchState "tok-nosub" =
        (.error (.saltServiceError "Missing user subject (sub)"), matchState,
         [NetCall.salt "tok-nosub"]) :=
  ⟨completeZkLogin_subless_salt_rejection.1 noSubSaltEnv [] (some "x.y.z")
      { sub := none, aud := none, iss := none, nonce := none }
      (by decide) rfl rfl,
   completeZkLogin_subless_salt_rejection.2 noSubSdk saltRejectEnv matchState
      "tok-nosub" { nonce := some "N9" } "pk-1" "Missing user subject (sub)"
      rfl (by decide) (by decide) rfl (by decide) rfl⟩
